import Mathlib

/-!
Verification development for the dvln/api package (Go).

Modelling conventions:
- Go strings and byte slices are modelled as lists of byte values
  (GoStr := List Nat); all string literals in the source are ASCII, so the
  byte values are the character code points.
- The Go standard-library collaborators json.Marshal and json.Indent are
  external to this repository; they are modelled as oracles (function-valued
  fields of ApiEnv), since the package only branches on their success and,
  for json.Indent, embeds the error text into a warning message.
- The package-level mutable globals (storedFatalError, storedNonFatalWarning,
  storedNote, jsonIndentLevel, jsonPrefix abbreviated jsonPfx, jsonRaw) and
  the environment variable PKG_API_APIVER are passed explicitly via ApiEnv
  and JsonConfig.
- The repository source concatenates several historical versions of the
  package; the definitions below follow the richer variant (json.go lines
  1-263 together with the accumulator/data-model file), which is the one the
  analysed behaviour refers to.  EscapeCtrl from the older variant is also
  embedded.
-/

/-- Go strings / byte slices as lists of byte values. -/
abbrev GoStr := List Nat

/-- Byte values of an ASCII Lean string literal (Go string literal). -/
def gostr (s : String) : GoStr := s.data.map (fun c => c.toNat)

/-- Nibble to lower-case hex digit byte, as Go encoding/hex uses
("0123456789abcdef"). -/
def hexDigitVal (n : Nat) : Nat := if n < 10 then 48 + n else 87 + n

/-- The six bytes the escape loop emits for one escaped byte: the template
backslash-u-0-0 (from the Go literal containing backslash, u, 0, 0, 0, 0)
with the last two bytes overwritten by hex.Encode of the byte. -/
def escByteHex (b : Nat) : GoStr :=
  [92, 117, 48, 48, hexDigitVal (b / 16), hexDigitVal (b % 16)]

/-- EscapeJSONString from json.go (richer variant, lines 103-122): escapes
every byte with value at most 31 and the double-quote byte 34 as a
backslash-u00XX sequence and passes every other byte through.  The Go code's
copy-on-first-escape allocation trick is observationally the identity on the
no-escape path, which this per-byte recursion also yields. -/
def EscapeJSONString : GoStr → GoStr
  | [] => []
  | ch :: rest =>
    if ch ≤ 31 ∨ ch = 34 then escByteHex ch ++ EscapeJSONString rest
    else ch :: EscapeJSONString rest

/-- EscapeCtrl from json.go (older variant, lines 367-386): same loop but
escaping only bytes with value at most 31, not the double quote. -/
def EscapeCtrl : GoStr → GoStr
  | [] => []
  | ch :: rest =>
    if ch ≤ 31 then escByteHex ch ++ EscapeCtrl rest
    else ch :: EscapeCtrl rest

/-- The Msg structure (part_000 lines 41-45): message text, code, level. -/
structure Msg where
  message : GoStr
  code : Int
  level : GoStr
deriving Repr, DecidableEq

/-- The zero value of Msg (Go: var errMsg Msg). -/
def msgZero : Msg := { message := [], code := 0, level := [] }

/-- NewMsg from part_000 lines 53-55. -/
def NewMsg (msg : GoStr) (code : Int) (level : GoStr) : Msg :=
  { message := msg, code := code, level := level }

/-- SetStoredNonFatalWarning from part_000 lines 73-87, as a pure state
transformer: given the currently stored warning, the new message and the
variadic default-code argument (empty list = absent, defaulting to 0),
returns the new stored warning. -/
def SetStoredNonFatalWarning (storedNonFatalWarning : Msg) (msg : Msg)
    (defCode : List Int) : Msg :=
  let defaultCode : Int := match defCode with | [] => 0 | c :: _ => c
  if storedNonFatalWarning.message ≠ [] then
    let msg1 := { msg with message := msg.message ++ storedNonFatalWarning.message }
    if (msg1.code = 0 ∨ msg1.code = defaultCode) ∧
        ¬(storedNonFatalWarning.code = 0 ∨ storedNonFatalWarning.code = defaultCode) then
      { msg1 with code := storedNonFatalWarning.code }
    else msg1
  else msg

/-- SetStoredNote from part_000 lines 97-111: identical additive policy over
the stored note slot. -/
def SetStoredNote (storedNote : Msg) (msg : Msg) (defCode : List Int) : Msg :=
  let defaultCode : Int := match defCode with | [] => 0 | c :: _ => c
  if storedNote.message ≠ [] then
    let msg1 := { msg with message := msg.message ++ storedNote.message }
    if (msg1.code = 0 ∨ msg1.code = defaultCode) ∧
        ¬(storedNote.code = 0 ∨ storedNote.code = defaultCode) then
      { msg1 with code := storedNote.code }
    else msg1
  else msg

/-- The data section built by SetAPIItems (part_000 lines 129-137), with the
opaque items kept as a type parameter. -/
structure ApiItemData (α : Type) where
  kind : GoStr
  verbosity : GoStr
  fields : List GoStr
  totalItems : Nat
  startIndex : Nat
  currentItemCount : Nat
  items : List α
deriving Repr, DecidableEq

/-- The apiData root record (part_000 lines 28-36); interface-typed optional
fields become Option. -/
structure ApiData (α : Type) where
  apiVersion : GoStr
  context : GoStr
  id : Int
  note : Option Msg
  warning : Option Msg
  error : Option Msg
  data : Option (ApiItemData α)
deriving Repr, DecidableEq

/-- newAPIData from part_000 lines 117-122: fresh root with id 0 and all
optional sections absent. -/
def newAPIData (α : Type) (apiVersion context : GoStr) : ApiData α :=
  { apiVersion := apiVersion, context := context, id := 0,
    note := none, warning := none, error := none, data := none }

/-- SetAPIItems from part_000 lines 128-149: builds the data section and
wholesale-replaces any previous one on the root. -/
def SetAPIItems (r : ApiData α) (kind verbosity : GoStr) (fields : List GoStr)
    (items : List α) : ApiData α :=
  let length := items.length
  let data : ApiItemData α :=
    { kind := kind, verbosity := verbosity, fields := fields,
      totalItems := length, startIndex := 1, currentItemCount := length,
      items := items }
  { r with data := some data }

/-- The module-level formatting configuration of json.go (lines 35-37):
indent level, prefix string (source name jsonPrefix) and raw toggle. -/
structure JsonConfig where
  jsonIndentLevel : Int
  jsonPfx : GoStr
  jsonRaw : Bool

/-- The external str.Pad capability as the spec describes it: a left-padded
run of the pad character of the given width (PrettyJSON calls it with an
empty base string and a single space). -/
def strPad (padLen : Int) : GoStr := List.replicate padLen.toNat 32

/-- PrettyJSON from json.go lines 82-100, with the external json.Indent
modelled as the oracle jsonIndent (returning the buffer bytes and an optional
error text).  fmtArgs models the variadic trailing prefix/indent arguments;
cast.ToString on bytes is the identity in the byte-list model. -/
def PrettyJSON (cfg : JsonConfig)
    (jsonIndent : List Nat → GoStr → GoStr → GoStr × Option GoStr)
    (b : List Nat) (fmtArgs : List GoStr) : GoStr × Option GoStr :=
  if cfg.jsonRaw then (b, none)
  else
    let pi : GoStr × GoStr :=
      match fmtArgs with
      | [p] => (p, strPad cfg.jsonIndentLevel)
      | [p, i] => (p, i)
      | _ => (cfg.jsonPfx, strPad cfg.jsonIndentLevel)
    let res := jsonIndent b pi.1 pi.2
    (res.1 ++ gostr "\n", res.2)

/-- Decimal rendering of a Go int, as fmt.Sprintf with verb d produces. -/
def intToGoStr (n : Int) : GoStr := gostr (toString n)

/-- The explicit process state GetJSONOutput and FatalJSONMsg read: the
PKG_API_APIVER environment variable (empty when unset, as os.Getenv reports),
the three stored accumulator slots, the formatting configuration and the
json.Indent oracle. -/
structure ApiEnv where
  envApiVer : GoStr
  storedFatalError : Msg
  storedNonFatalWarning : Msg
  storedNote : Msg
  cfg : JsonConfig
  jsonIndent : List Nat → GoStr → GoStr → GoStr × Option GoStr

/-- encodeMsgInRawJSON from json.go lines 127-134: empty message gives the
empty string, otherwise the hand-built flavor fragment with the message text
escaped. -/
def encodeMsgInRawJSON (flavor : GoStr) (msg : Msg) : GoStr :=
  if msg.message = [] then []
  else
    let cleanMsg := EscapeJSONString msg.message
    gostr "\x22" ++ flavor ++ gostr "\x22: \x7b \x22message\x22: \x22" ++ cleanMsg ++
      gostr "\x22, \x22code\x22: " ++ intToGoStr msg.code ++
      gostr ", \x22level\x22: \x22" ++ msg.level ++ gostr "\x22\x7d"

/-- The message-list part of the fallback fragment (FatalJSONMsg lines
140-158): optional note and warning fragments each followed by a comma-space,
then the error fragment, where an absent error message falls back to the
stored fatal error and finally to a fixed unknown-error message. -/
def fatalMsgsJSON (E : ApiEnv) (errMsg : Msg) : GoStr :=
  let noteMsgJSON := encodeMsgInRawJSON (gostr "note") E.storedNote
  let warnMsgJSON := encodeMsgInRawJSON (gostr "warning") E.storedNonFatalWarning
  let errMsgJSON0 := encodeMsgInRawJSON (gostr "error") errMsg
  let errMsgJSON :=
    if errMsgJSON0 = [] then
      let e1 := encodeMsgInRawJSON (gostr "error") E.storedFatalError
      if e1 = [] then
        encodeMsgInRawJSON (gostr "error")
          (NewMsg (gostr "Unknown Fatal Error (Coding Error?)") 0 (gostr "UNKNOWN"))
      else e1
    else errMsgJSON0
  let m0 := if noteMsgJSON ≠ [] then noteMsgJSON ++ gostr ", " else []
  let m1 := if warnMsgJSON ≠ [] then m0 ++ warnMsgJSON ++ gostr ", " else m0
  m1 ++ errMsgJSON

/-- The raw fallback fragment before the formatting attempt (FatalJSONMsg
lines 159-160). -/
def fatalRawJSON (E : ApiEnv) (apiVer : GoStr) (errMsg : Msg) : GoStr :=
  gostr "\x7b \x22apiVersion\x22:\x22" ++ apiVer ++ gostr "\x22, \x22id\x22: " ++
    intToGoStr (-1) ++ gostr ", " ++ fatalMsgsJSON E errMsg ++ gostr " \x7d"

/-- FatalJSONMsg from json.go lines 139-166: build the raw fragment, attempt
to pretty-print it, and fall back to the raw fragment when formatting
fails. -/
def FatalJSONMsg (E : ApiEnv) (apiVer : GoStr) (errMsg : Msg) : GoStr :=
  let rawJSON := fatalRawJSON E apiVer errMsg
  let res := PrettyJSON E.cfg E.jsonIndent rawJSON []
  match res.2 with
  | some _ => rawJSON
  | none => res.1

/-- The intermediate state GetJSONOutput has accumulated just before the
first json.Marshal call (lines 174-224): resolved version, the active
error/warning/note message copies, the fatal flag and the built root. -/
structure BuildState (α : Type) where
  apiVer : GoStr
  errMsg : Msg
  warnMsg : Msg
  noteMsg : Msg
  fatalErr : Bool
  apiRoot : ApiData α

/-- The fatal message GetJSONOutput synthesizes when no version is available
(lines 186-188). -/
def noVersionMsg : Msg :=
  { message := gostr "No valid JSON API version is available",
    code := 1001, level := gostr "FATAL" }

/-- Lines 181-191 of GetJSONOutput: resolve the version against the
PKG_API_APIVER environment fallback; a still-missing version yields the
placeholder version, the 1001 fatal message and fatalErr = true. -/
def resolveVer (E : ApiEnv) (apiVer : GoStr) : GoStr × Msg × Bool :=
  if apiVer = [] then
    if E.envApiVer = [] then (gostr "?.?", noVersionMsg, true)
    else (E.envApiVer, msgZero, false)
  else (apiVer, msgZero, false)

/-- Lines 193-198 of GetJSONOutput: when no error is active yet and a fatal
error is latched, adopt it with its message escaped and set fatalErr. -/
def adoptStoredFatal (E : ApiEnv) (errMsg1 : Msg) (fatalErr1 : Bool) : Msg × Bool :=
  if errMsg1.message = [] ∧ E.storedFatalError.message ≠ [] then
    ({ E.storedFatalError with
       message := EscapeJSONString E.storedFatalError.message }, true)
  else (errMsg1, fatalErr1)

/-- Lines 199-208 of GetJSONOutput: the escaped working copy taken of a
latched warning or note (the zero Msg when the slot is empty). -/
def escapedCopy (stored : Msg) : Msg :=
  if stored.message ≠ [] then { stored with message := EscapeJSONString stored.message }
  else msgZero

/-- Lines 209-224 of GetJSONOutput: either populate the data section and
attach the carried warning and note, or mark the root failed with id -1 and
the error attached (and no data section). -/
def attachSections (root : ApiData α) (errMsg warnMsg noteMsg : Msg)
    (kind verbosity : GoStr) (fields : List GoStr) (items : List α) : ApiData α :=
  if errMsg.message = [] then
    let r0 := SetAPIItems root kind verbosity fields items
    let r1 := if warnMsg.message ≠ [] then { r0 with warning := some warnMsg } else r0
    if noteMsg.message ≠ [] then { r1 with note := some noteMsg } else r1
  else { root with id := -1, error := some errMsg }

/-- Lines 181-224 of GetJSONOutput: version resolution against the
environment fallback, adoption of the stored fatal error (escaped), escaped
copies of stored warning and note, and the branch that either populates the
data section (attaching warning and note) or marks the root failed with id -1
and the error attached. -/
def buildAPIRoot (α : Type) (E : ApiEnv) (apiVer context kind verbosity : GoStr)
    (fields : List GoStr) (items : List α) : BuildState α :=
  let v := resolveVer E apiVer
  let ef := adoptStoredFatal E v.2.1 v.2.2
  let warnMsg1 := escapedCopy E.storedNonFatalWarning
  let noteMsg1 := escapedCopy E.storedNote
  let apiRoot1 := attachSections (newAPIData α v.1 context) ef.1 warnMsg1 noteMsg1
    kind verbosity fields items
  { apiVer := v.1, errMsg := ef.1, warnMsg := warnMsg1, noteMsg := noteMsg1,
    fatalErr := ef.2, apiRoot := apiRoot1 }

/-- The warning GetJSONOutput synthesizes when pretty-printing fails after a
successful marshal (lines 241-243); the argument is the error text the
formatter reported. -/
def beautifyWarnMsg (e : GoStr) : Msg :=
  { message := gostr "Unable to beautify JSON output: " ++ e,
    code := 1003, level := gostr "ISSUE" }

/-- Lines 225-262 of GetJSONOutput, operating on the accumulated build
state: first marshal attempt with the fallback-builder escape hatch, then
the pretty-print attempt with its warning-remarshal-retry ladder. -/
def getJSONOutputAux (E : ApiEnv) (marshal : ApiData α → Option (List Nat))
    (s : BuildState α) : GoStr × Bool :=
  match marshal s.apiRoot with
  | none =>
    if s.errMsg.message = [] then
      (FatalJSONMsg E s.apiVer
        { message := gostr "Unable to marshal basic JSON API string",
          code := 1002, level := gostr "FATAL" }, true)
    else
      (FatalJSONMsg E s.apiVer s.errMsg, s.fatalErr)
  | some j =>
    let p1 := PrettyJSON E.cfg E.jsonIndent j []
    match p1.2 with
    | none => (p1.1, s.fatalErr)
    | some e =>
      let warnMsg2 := beautifyWarnMsg e
      let apiRoot2 := { s.apiRoot with warning := some warnMsg2 }
      match marshal apiRoot2 with
      | none =>
        (FatalJSONMsg E s.apiVer { warnMsg2 with level := gostr "FATAL" }, true)
      | some j2 =>
        let p2 := PrettyJSON E.cfg E.jsonIndent j2 []
        match p2.2 with
        | none => (p2.1, s.fatalErr)
        | some _ => (j2, s.fatalErr)

/-- GetJSONOutput from json.go lines 174-263, with json.Marshal modelled as
the oracle marshal (none = error).  Returns the output text and the fatal
flag (true means a fatal occurred, i.e. success is false). -/
def GetJSONOutput (E : ApiEnv) (marshal : ApiData α → Option (List Nat))
    (apiVer context kind verbosity : GoStr) (fields : List GoStr)
    (items : List α) : GoStr × Bool :=
  getJSONOutputAux E marshal (buildAPIRoot α E apiVer context kind verbosity fields items)

/-- Predicate following the spec's words for the one retry the output
builder performs: the first marshal succeeded, formatting failed, and the
re-marshal of the root carrying the synthesized formatting warning failed as
well. -/
def secondMarshalFailed (E : ApiEnv) (marshal : ApiData α → Option (List Nat))
    (root : ApiData α) : Prop :=
  match marshal root with
  | none => False
  | some j =>
    match (PrettyJSON E.cfg E.jsonIndent j []).2 with
    | none => False
    | some e => marshal { root with warning := some (beautifyWarnMsg e) } = none

/-- Spec-side inverse of a lower-case hex digit byte, used to state that the
two digits of an escape sequence encode the original byte. -/
def hexNibbleDecode (d : Nat) : Nat := if d ≤ 57 then d - 48 else d - 87

theorem escapeJSONString_sanity :
    EscapeJSONString (gostr "a\"b") = gostr "a\x5cu0022b" := by decide

theorem hexDigitVal_gt_34 (n : Nat) : 34 < hexDigitVal n := by
  unfold hexDigitVal; split <;> omega

theorem escapeJSONString_ne_nil {l : GoStr} (h : l ≠ []) : EscapeJSONString l ≠ [] := by
  cases l with
  | nil => exact absurd rfl h
  | cons ch rest =>
    unfold EscapeJSONString
    split
    · simp [escByteHex]
    · simp

theorem escapeJSONString_id (l : GoStr) (h : ∀ b ∈ l, ¬(b ≤ 31 ∨ b = 34)) :
    EscapeJSONString l = l := by
  induction l with
  | nil => rfl
  | cons ch rest ih =>
    unfold EscapeJSONString
    rw [if_neg (h ch (List.mem_cons_self ch rest))]
    rw [ih fun b hb => h b (List.mem_cons_of_mem ch hb)]

theorem escapeJSONString_flatMap (l : GoStr) :
    EscapeJSONString l = l.flatMap fun b =>
      if b ≤ 31 ∨ b = 34 then [92, 117, 48, 48, hexDigitVal (b / 16), hexDigitVal (b % 16)]
      else [b] := by
  induction l with
  | nil => rfl
  | cons ch rest ih =>
    unfold EscapeJSONString
    rw [List.flatMap_cons, ih]
    by_cases hc : ch ≤ 31 ∨ ch = 34
    · rw [if_pos hc, if_pos hc]; rfl
    · rw [if_neg hc, if_neg hc]; rfl

theorem mem_escapeJSONString_not_escapable (l : GoStr) :
    ∀ b ∈ EscapeJSONString l, ¬(b ≤ 31 ∨ b = 34) := by
  induction l with
  | nil => intro b hb; simp [EscapeJSONString] at hb
  | cons ch rest ih =>
    intro b hb
    unfold EscapeJSONString at hb
    by_cases hc : ch ≤ 31 ∨ ch = 34
    · rw [if_pos hc] at hb
      rcases List.mem_append.1 hb with h1 | h2
      · have h34a := hexDigitVal_gt_34 (ch / 16)
        have h34b := hexDigitVal_gt_34 (ch % 16)
        simp only [escByteHex, List.mem_cons, List.not_mem_nil, or_false] at h1
        rcases h1 with rfl | rfl | rfl | rfl | rfl | rfl <;> omega
      · exact ih b h2
    · rw [if_neg hc] at hb
      rcases List.mem_cons.1 hb with rfl | h2
      · exact hc
      · exact ih b h2

/-- C5: EscapeJSONString replaces each byte that is at most 31 or equals 34
by the six-byte sequence backslash-u-0-0 followed by the two lower-case hex
digits of the byte (which decode back to it), leaves every other byte
unchanged in order, and is the identity on inputs containing no such byte. -/
theorem escapeJSONString_spec (l : GoStr) :
    (EscapeJSONString l = l.flatMap fun b =>
      if b ≤ 31 ∨ b = 34 then [92, 117, 48, 48, hexDigitVal (b / 16), hexDigitVal (b % 16)]
      else [b]) ∧
    (∀ b, (b ≤ 31 ∨ b = 34) →
      16 * hexNibbleDecode (hexDigitVal (b / 16)) + hexNibbleDecode (hexDigitVal (b % 16)) = b) ∧
    ((∀ b ∈ l, ¬(b ≤ 31 ∨ b = 34)) → EscapeJSONString l = l) := by
  refine ⟨escapeJSONString_flatMap l, ?_, escapeJSONString_id l⟩
  intro b hb
  have hble : b ≤ 34 := by omega
  unfold hexDigitVal hexNibbleDecode
  have h1 : b / 16 ≤ 2 := by omega
  have h2 : b % 16 < 16 := Nat.mod_lt _ (by omega)
  split_ifs <;> omega

theorem escapeJSONString_spec_witness :
    (∀ b ∈ gostr "plain text", ¬(b ≤ 31 ∨ b = 34)) ∧
    EscapeJSONString (gostr "plain text") = gostr "plain text" ∧
    ((10 ≤ 31 ∨ 10 = 34) ∧
      16 * hexNibbleDecode (hexDigitVal (10 / 16)) + hexNibbleDecode (hexDigitVal (10 % 16))
        = 10) :=
  ⟨by decide, (escapeJSONString_spec (gostr "plain text")).2.2 (by decide),
    by decide, (escapeJSONString_spec (gostr "plain text")).2.1 10 (by decide)⟩

/-- C10: escaping is idempotent, because one pass leaves no byte at most 31
and no double-quote byte in its output. -/
theorem escapeJSONString_idempotent (l : GoStr) :
    EscapeJSONString (EscapeJSONString l) = EscapeJSONString l :=
  escapeJSONString_id _ (mem_escapeJSONString_not_escapable l)

/-- C6: when a warning or note with non-empty text is already latched, the
additive policy stores the new text immediately followed by the old text with
no separator, and keeps the new code except when the new code is unset (0) or
equal to the supplied default while the old code is neither, in which case
the old code wins. -/
theorem setStored_additive (stored msg : Msg) (defCode : List Int)
    (h : stored.message ≠ []) :
    (SetStoredNonFatalWarning stored msg defCode).message = msg.message ++ stored.message ∧
    (SetStoredNote stored msg defCode).message = msg.message ++ stored.message ∧
    (((msg.code = 0 ∨ msg.code = defCode.headD 0) ∧
        stored.code ≠ 0 ∧ stored.code ≠ defCode.headD 0) →
      (SetStoredNonFatalWarning stored msg defCode).code = stored.code ∧
      (SetStoredNote stored msg defCode).code = stored.code) ∧
    ((¬((msg.code = 0 ∨ msg.code = defCode.headD 0) ∧
        stored.code ≠ 0 ∧ stored.code ≠ defCode.headD 0)) →
      (SetStoredNonFatalWarning stored msg defCode).code = msg.code ∧
      (SetStoredNote stored msg defCode).code = msg.code) := by
  rcases defCode with _ | ⟨c, cs⟩ <;>
    simp only [SetStoredNonFatalWarning, SetStoredNote, List.headD, if_pos h] <;>
    split_ifs with hc <;>
    refine ⟨rfl, rfl, ?_, ?_⟩ <;> intro hx <;>
    first
      | exact ⟨rfl, rfl⟩
      | exact absurd hc (by tauto)

theorem setStored_additive_witness :
    (gostr "A" ≠ ([] : GoStr)) ∧
    (SetStoredNonFatalWarning (NewMsg (gostr "A") 0 []) (NewMsg (gostr "B") 0 []) [0]).message
      = gostr "BA" := by
  have h := (setStored_additive (NewMsg (gostr "A") 0 []) (NewMsg (gostr "B") 0 []) [0]
    (by decide)).1
  exact ⟨by decide, h.trans (by decide)⟩

/-- C8: with raw mode enabled PrettyJSON returns the input bytes unchanged
with no error, whatever the configured indent level, configured prefix,
per-call optional arguments or indentation oracle. -/
theorem prettyJSON_raw_mode (cfg : JsonConfig)
    (jsonIndent : List Nat → GoStr → GoStr → GoStr × Option GoStr)
    (b : List Nat) (fmtArgs : List GoStr) (h : cfg.jsonRaw = true) :
    PrettyJSON cfg jsonIndent b fmtArgs = (b, none) := by
  unfold PrettyJSON
  rw [if_pos h]

theorem prettyJSON_raw_mode_witness :
    ({ jsonIndentLevel := 7, jsonPfx := gostr ">>", jsonRaw := true } : JsonConfig).jsonRaw
      = true ∧
    PrettyJSON { jsonIndentLevel := 7, jsonPfx := gostr ">>", jsonRaw := true }
      (fun b p i => (p ++ i ++ b, some (gostr "boom")))
      (gostr "\x7b\x7d") [gostr "p", gostr "   "] = (gostr "\x7b\x7d", none) :=
  ⟨rfl, prettyJSON_raw_mode _ _ _ _ rfl⟩

/-- C9: SetAPIItems sets totalItems and currentItemCount to the number of
items and startIndex to 1, wholesale-replaces any previous data section, and
leaves the root's id, version, context, error, warning and note unchanged. -/
theorem setAPIItems_spec {α : Type} (r : ApiData α) (kind verbosity : GoStr)
    (fields : List GoStr) (items : List α) :
    (SetAPIItems r kind verbosity fields items).data =
      some { kind := kind, verbosity := verbosity, fields := fields,
             totalItems := items.length, startIndex := 1,
             currentItemCount := items.length, items := items } ∧
    (SetAPIItems r kind verbosity fields items).id = r.id ∧
    (SetAPIItems r kind verbosity fields items).apiVersion = r.apiVersion ∧
    (SetAPIItems r kind verbosity fields items).context = r.context ∧
    (SetAPIItems r kind verbosity fields items).error = r.error ∧
    (SetAPIItems r kind verbosity fields items).warning = r.warning ∧
    (SetAPIItems r kind verbosity fields items).note = r.note :=
  ⟨rfl, rfl, rfl, rfl, rfl, rfl, rfl⟩

theorem buildAPIRoot_apiVer (α : Type) (E : ApiEnv) (apiVer context kind verbosity : GoStr)
    (fields : List GoStr) (items : List α) :
    (buildAPIRoot α E apiVer context kind verbosity fields items).apiVer =
      (resolveVer E apiVer).1 := rfl

theorem buildAPIRoot_errMsg (α : Type) (E : ApiEnv) (apiVer context kind verbosity : GoStr)
    (fields : List GoStr) (items : List α) :
    (buildAPIRoot α E apiVer context kind verbosity fields items).errMsg =
      (adoptStoredFatal E (resolveVer E apiVer).2.1 (resolveVer E apiVer).2.2).1 := rfl

theorem buildAPIRoot_fatalErr (α : Type) (E : ApiEnv) (apiVer context kind verbosity : GoStr)
    (fields : List GoStr) (items : List α) :
    (buildAPIRoot α E apiVer context kind verbosity fields items).fatalErr =
      (adoptStoredFatal E (resolveVer E apiVer).2.1 (resolveVer E apiVer).2.2).2 := rfl

theorem buildAPIRoot_apiRoot (α : Type) (E : ApiEnv) (apiVer context kind verbosity : GoStr)
    (fields : List GoStr) (items : List α) :
    (buildAPIRoot α E apiVer context kind verbosity fields items).apiRoot =
      attachSections (newAPIData α (resolveVer E apiVer).1 context)
        (adoptStoredFatal E (resolveVer E apiVer).2.1 (resolveVer E apiVer).2.2).1
        (escapedCopy E.storedNonFatalWarning) (escapedCopy E.storedNote)
        kind verbosity fields items := rfl

theorem resolveVer_inv (E : ApiEnv) (apiVer : GoStr) :
    (resolveVer E apiVer).2.2 = true ↔ (resolveVer E apiVer).2.1.message ≠ [] := by
  unfold resolveVer
  split_ifs
  · decide
  · simp [msgZero]
  · simp [msgZero]

theorem resolveVer_msgZero (E : ApiEnv) (apiVer : GoStr)
    (h : apiVer ≠ [] ∨ E.envApiVer ≠ []) :
    (resolveVer E apiVer).2.1 = msgZero ∧ (resolveVer E apiVer).2.2 = false := by
  unfold resolveVer
  split_ifs with h1 h2
  · rcases h with h | h
    · exact absurd h1 h
    · exact absurd h2 h
  · exact ⟨rfl, rfl⟩
  · exact ⟨rfl, rfl⟩

theorem adoptStoredFatal_inv (E : ApiEnv) (m : Msg) (f : Bool)
    (h : f = true ↔ m.message ≠ []) :
    (adoptStoredFatal E m f).2 = true ↔ (adoptStoredFatal E m f).1.message ≠ [] := by
  unfold adoptStoredFatal
  split_ifs with hc
  · dsimp only
    constructor
    · intro _
      exact escapeJSONString_ne_nil hc.2
    · intro _
      rfl
  · exact h

theorem buildAPIRoot_fatal_iff (α : Type) (E : ApiEnv) (apiVer context kind verbosity : GoStr)
    (fields : List GoStr) (items : List α) :
    (buildAPIRoot α E apiVer context kind verbosity fields items).fatalErr = true ↔
      (buildAPIRoot α E apiVer context kind verbosity fields items).errMsg.message ≠ [] :=
  adoptStoredFatal_inv E _ _ (resolveVer_inv E apiVer)

theorem attachSections_ok {α : Type} (root : ApiData α) (errMsg warnMsg noteMsg : Msg)
    (kind verbosity : GoStr) (fields : List GoStr) (items : List α)
    (h : errMsg.message = []) :
    (attachSections root errMsg warnMsg noteMsg kind verbosity fields items).id = root.id ∧
    (attachSections root errMsg warnMsg noteMsg kind verbosity fields items).error = root.error ∧
    (attachSections root errMsg warnMsg noteMsg kind verbosity fields items).apiVersion
      = root.apiVersion ∧
    (attachSections root errMsg warnMsg noteMsg kind verbosity fields items).data =
      some { kind := kind, verbosity := verbosity, fields := fields,
             totalItems := items.length, startIndex := 1,
             currentItemCount := items.length, items := items } := by
  unfold attachSections
  rw [if_pos h]
  dsimp only
  split_ifs <;> exact ⟨rfl, rfl, rfl, rfl⟩

theorem attachSections_err {α : Type} (root : ApiData α) (errMsg warnMsg noteMsg : Msg)
    (kind verbosity : GoStr) (fields : List GoStr) (items : List α)
    (h : errMsg.message ≠ []) :
    attachSections root errMsg warnMsg noteMsg kind verbosity fields items =
      { root with id := -1, error := some errMsg } := by
  unfold attachSections
  rw [if_neg h]

theorem attachSections_error_iff {α : Type} (root : ApiData α) (errMsg warnMsg noteMsg : Msg)
    (kind verbosity : GoStr) (fields : List GoStr) (items : List α)
    (hroot : root.error = none) :
    (attachSections root errMsg warnMsg noteMsg kind verbosity fields items).error ≠ none ↔
      errMsg.message ≠ [] := by
  by_cases h : errMsg.message = []
  · rw [(attachSections_ok root errMsg warnMsg noteMsg kind verbosity fields items h).2.1,
      hroot]
    simp [h]
  · rw [attachSections_err root errMsg warnMsg noteMsg kind verbosity fields items h]
    simp [h]

theorem attachSections_id {α : Type} (root : ApiData α) (errMsg warnMsg noteMsg : Msg)
    (kind verbosity : GoStr) (fields : List GoStr) (items : List α)
    (hid : root.id = 0) :
    ((attachSections root errMsg warnMsg noteMsg kind verbosity fields items).id = -1 ↔
      errMsg.message ≠ []) ∧
    (errMsg.message = [] →
      (attachSections root errMsg warnMsg noteMsg kind verbosity fields items).id = 0) := by
  by_cases h : errMsg.message = []
  · rw [(attachSections_ok root errMsg warnMsg noteMsg kind verbosity fields items h).1, hid]
    simp [h]
  · rw [attachSections_err root errMsg warnMsg noteMsg kind verbosity fields items h]
    simp [h]

theorem buildAPIRoot_error_iff (α : Type) (E : ApiEnv) (apiVer context kind verbosity : GoStr)
    (fields : List GoStr) (items : List α) :
    (buildAPIRoot α E apiVer context kind verbosity fields items).apiRoot.error ≠ none ↔
      (buildAPIRoot α E apiVer context kind verbosity fields items).errMsg.message ≠ [] :=
  attachSections_error_iff (newAPIData α (resolveVer E apiVer).1 context)
    (adoptStoredFatal E (resolveVer E apiVer).2.1 (resolveVer E apiVer).2.2).1
    (escapedCopy E.storedNonFatalWarning) (escapedCopy E.storedNote)
    kind verbosity fields items rfl

theorem getJSONOutputAux_snd {α : Type} (E : ApiEnv)
    (marshal : ApiData α → Option (List Nat)) (s : BuildState α)
    (hinv : s.fatalErr = true ↔ s.errMsg.message ≠ []) :
    (getJSONOutputAux E marshal s).2 = true ↔
      (s.errMsg.message ≠ [] ∨ marshal s.apiRoot = none ∨
        secondMarshalFailed E marshal s.apiRoot) := by
  simp only [getJSONOutputAux, secondMarshalFailed]
  cases hm : marshal s.apiRoot with
  | none =>
    split_ifs with he
    · simp [he]
    · simp [hinv, he]
  | some j =>
    cases hp : (PrettyJSON E.cfg E.jsonIndent j []).2 with
    | none => simp [hp, hinv]
    | some e =>
      cases hm2 : marshal (ApiData.mk s.apiRoot.apiVersion s.apiRoot.context s.apiRoot.id
          s.apiRoot.note (some (beautifyWarnMsg e)) s.apiRoot.error s.apiRoot.data) with
      | none => simp [hp, hm2]
      | some j2 =>
        cases hp2 : (PrettyJSON E.cfg E.jsonIndent j2 []).2 with
        | none => simp [hp, hm2, hp2, hinv]
        | some e2 => simp [hp, hm2, hp2, hinv]

/-- C2: in the root record GetJSONOutput builds before encoding, the id is -1
exactly when the error field is present, and every no-error path leaves the
id at 0 with no error attached. -/
theorem buildRoot_id_iff_error (α : Type) (E : ApiEnv)
    (apiVer context kind verbosity : GoStr) (fields : List GoStr) (items : List α) :
    ((buildAPIRoot α E apiVer context kind verbosity fields items).apiRoot.id = -1 ↔
      (buildAPIRoot α E apiVer context kind verbosity fields items).apiRoot.error ≠ none) ∧
    ((buildAPIRoot α E apiVer context kind verbosity fields items).apiRoot.error = none →
      (buildAPIRoot α E apiVer context kind verbosity fields items).apiRoot.id = 0) := by
  have hid := attachSections_id (newAPIData α (resolveVer E apiVer).1 context)
    (adoptStoredFatal E (resolveVer E apiVer).2.1 (resolveVer E apiVer).2.2).1
    (escapedCopy E.storedNonFatalWarning) (escapedCopy E.storedNote)
    kind verbosity fields items rfl
  have herr := attachSections_error_iff (newAPIData α (resolveVer E apiVer).1 context)
    (adoptStoredFatal E (resolveVer E apiVer).2.1 (resolveVer E apiVer).2.2).1
    (escapedCopy E.storedNonFatalWarning) (escapedCopy E.storedNote)
    kind verbosity fields items rfl
  constructor
  · exact hid.1.trans herr.symm
  · intro h
    have hnn : ¬((adoptStoredFatal E (resolveVer E apiVer).2.1
        (resolveVer E apiVer).2.2).1.message ≠ []) := fun hne => (herr.mpr hne) h
    exact hid.2 (not_not.mp hnn)

/-- C1: the returned flag is true (success = false) exactly when an error was
attached to the built root or a marshal attempt failed, and a formatting
failure alone, after successful encoding attempts, leaves the flag false
(success = true). -/
theorem getJSONOutput_success_iff (α : Type) (E : ApiEnv)
    (marshal : ApiData α → Option (List Nat)) (apiVer context kind verbosity : GoStr)
    (fields : List GoStr) (items : List α) :
    ((GetJSONOutput E marshal apiVer context kind verbosity fields items).2 = true ↔
      ((buildAPIRoot α E apiVer context kind verbosity fields items).apiRoot.error ≠ none ∨
        marshal (buildAPIRoot α E apiVer context kind verbosity fields items).apiRoot
          = none ∨
        secondMarshalFailed E marshal
          (buildAPIRoot α E apiVer context kind verbosity fields items).apiRoot)) ∧
    (((buildAPIRoot α E apiVer context kind verbosity fields items).apiRoot.error = none ∧
        marshal (buildAPIRoot α E apiVer context kind verbosity fields items).apiRoot
          ≠ none ∧
        ¬secondMarshalFailed E marshal
          (buildAPIRoot α E apiVer context kind verbosity fields items).apiRoot) →
      (GetJSONOutput E marshal apiVer context kind verbosity fields items).2 = false) := by
  have hsnd := getJSONOutputAux_snd E marshal
    (buildAPIRoot α E apiVer context kind verbosity fields items)
    (buildAPIRoot_fatal_iff α E apiVer context kind verbosity fields items)
  have herr := buildAPIRoot_error_iff α E apiVer context kind verbosity fields items
  constructor
  · exact hsnd.trans (or_congr herr.symm Iff.rfl)
  · rintro ⟨he, hm, hs⟩
    cases hb : (GetJSONOutput E marshal apiVer context kind verbosity fields items).2 with
    | false => rfl
    | true =>
      rcases (hsnd.trans (or_congr herr.symm Iff.rfl)).mp hb with h | h | h
      · exact absurd he h
      · exact absurd h hm
      · exact absurd h hs

/-- Default formatting configuration of the module (indent 2, no prefix, raw
off), used as a concrete fixture. -/
def cfgDefault : JsonConfig := { jsonIndentLevel := 2, jsonPfx := [], jsonRaw := false }

/-- Concrete fixture: empty environment (no env variable, empty accumulator
slots) whose indentation oracle succeeds returning its input. -/
def envEmpty : ApiEnv :=
  { envApiVer := [], storedFatalError := msgZero, storedNonFatalWarning := msgZero,
    storedNote := msgZero, cfg := cfgDefault, jsonIndent := fun b _ _ => (b, none) }

/-- Concrete fixture: environment with a latched fatal error. -/
def envLatched : ApiEnv :=
  { envEmpty with storedFatalError := NewMsg (gostr "boom") 7 (gostr "FATAL") }

/-- Concrete fixture: a marshal oracle that always succeeds. -/
def marshalOk : ApiData Nat → Option (List Nat) := fun _ => some (gostr "JJ")

theorem getJSONOutput_success_iff_witness :
    (((buildAPIRoot Nat envEmpty (gostr "1.0") (gostr "ctx") (gostr "env") []
        [] [5, 6]).apiRoot.error = none ∧
      marshalOk (buildAPIRoot Nat envEmpty (gostr "1.0") (gostr "ctx") (gostr "env") []
        [] [5, 6]).apiRoot ≠ none ∧
      ¬secondMarshalFailed envEmpty marshalOk
        (buildAPIRoot Nat envEmpty (gostr "1.0") (gostr "ctx") (gostr "env") []
          [] [5, 6]).apiRoot) ∧
    (GetJSONOutput envEmpty marshalOk (gostr "1.0") (gostr "ctx") (gostr "env") []
      [] [5, 6]).2 = false) := by
  have hc : (buildAPIRoot Nat envEmpty (gostr "1.0") (gostr "ctx") (gostr "env") []
      [] [5, 6]).apiRoot.error = none ∧
      marshalOk (buildAPIRoot Nat envEmpty (gostr "1.0") (gostr "ctx") (gostr "env") []
        [] [5, 6]).apiRoot ≠ none ∧
      ¬secondMarshalFailed envEmpty marshalOk
        (buildAPIRoot Nat envEmpty (gostr "1.0") (gostr "ctx") (gostr "env") []
          [] [5, 6]).apiRoot :=
    ⟨by decide, by decide, fun h => h⟩
  exact ⟨hc, (getJSONOutput_success_iff Nat envEmpty marshalOk (gostr "1.0") (gostr "ctx")
    (gostr "env") [] [] [5, 6]).2 hc⟩

/-- C4: with an empty version argument and an empty environment fallback,
GetJSONOutput returns the fatal flag (success = false) and builds a root with
id -1, placeholder version, and the 1001 FATAL error attached. -/
theorem getJSONOutput_missing_version (α : Type) (E : ApiEnv)
    (marshal : ApiData α → Option (List Nat)) (context kind verbosity : GoStr)
    (fields : List GoStr) (items : List α) (henv : E.envApiVer = []) :
    (GetJSONOutput E marshal [] context kind verbosity fields items).2 = true ∧
    (buildAPIRoot α E [] context kind verbosity fields items).apiRoot.id = -1 ∧
    (buildAPIRoot α E [] context kind verbosity fields items).apiRoot.apiVersion
      = gostr "?.?" ∧
    (buildAPIRoot α E [] context kind verbosity fields items).apiRoot.error =
      some { message := gostr "No valid JSON API version is available",
             code := 1001, level := gostr "FATAL" } := by
  have hres : resolveVer E [] = (gostr "?.?", noVersionMsg, true) := by
    unfold resolveVer
    rw [if_pos rfl, if_pos henv]
  have hadopt : adoptStoredFatal E noVersionMsg true = (noVersionMsg, true) := by
    unfold adoptStoredFatal
    rw [if_neg]
    intro hc
    exact (by decide : noVersionMsg.message ≠ []) hc.1
  have herr : (buildAPIRoot α E [] context kind verbosity fields items).errMsg
      = noVersionMsg := by
    rw [buildAPIRoot_errMsg, hres]
    dsimp only
    rw [hadopt]
  have hroot : (buildAPIRoot α E [] context kind verbosity fields items).apiRoot =
      { newAPIData α (gostr "?.?") context with id := -1, error := some noVersionMsg } := by
    rw [buildAPIRoot_apiRoot, hres]
    dsimp only
    rw [hadopt]
    dsimp only
    exact attachSections_err _ _ _ _ _ _ _ _ (by decide)
  refine ⟨?_, ?_, ?_, ?_⟩
  · exact (getJSONOutputAux_snd E marshal _
      (buildAPIRoot_fatal_iff α E [] context kind verbosity fields items)).2
      (Or.inl (by rw [herr]; decide))
  · rw [hroot]
  · rw [hroot]
    rfl
  · rw [hroot]
    rfl

theorem getJSONOutput_missing_version_witness :
    envEmpty.envApiVer = [] ∧
    ((GetJSONOutput envEmpty marshalOk [] (gostr "ctx") (gostr "env") [] [] [5, 6]).2
        = true ∧
      (buildAPIRoot Nat envEmpty [] (gostr "ctx") (gostr "env") [] [] [5, 6]).apiRoot.id
        = -1 ∧
      (buildAPIRoot Nat envEmpty [] (gostr "ctx") (gostr "env") [] []
        [5, 6]).apiRoot.apiVersion = gostr "?.?" ∧
      (buildAPIRoot Nat envEmpty [] (gostr "ctx") (gostr "env") [] []
        [5, 6]).apiRoot.error =
        some { message := gostr "No valid JSON API version is available",
               code := 1001, level := gostr "FATAL" }) :=
  ⟨rfl, getJSONOutput_missing_version Nat envEmpty marshalOk (gostr "ctx") (gostr "env")
    [] [] [5, 6] rfl⟩

/-- The working copy GetJSONOutput adopts from the latched fatal-error slot:
the stored message with its text escaped (lines 194-196). -/
def escapedStoredFatal (E : ApiEnv) : Msg :=
  { E.storedFatalError with message := EscapeJSONString E.storedFatalError.message }

/-- C3: with a latched fatal error and an available version, GetJSONOutput
returns the fatal flag (success = false) and builds a root with id -1, the
latched error attached with its text escaped, and no data section even
though items were supplied. -/
theorem getJSONOutput_latched_fatal (α : Type) (E : ApiEnv)
    (marshal : ApiData α → Option (List Nat)) (apiVer context kind verbosity : GoStr)
    (fields : List GoStr) (items : List α)
    (hv : apiVer ≠ [] ∨ E.envApiVer ≠ []) (hf : E.storedFatalError.message ≠ []) :
    (GetJSONOutput E marshal apiVer context kind verbosity fields items).2 = true ∧
    (buildAPIRoot α E apiVer context kind verbosity fields items).apiRoot.id = -1 ∧
    (buildAPIRoot α E apiVer context kind verbosity fields items).apiRoot.error =
      some (escapedStoredFatal E) ∧
    (buildAPIRoot α E apiVer context kind verbosity fields items).apiRoot.data = none := by
  obtain ⟨hm0, hf0⟩ := resolveVer_msgZero E apiVer hv
  have hadopt : adoptStoredFatal E msgZero false = (escapedStoredFatal E, true) := by
    unfold adoptStoredFatal escapedStoredFatal
    rw [if_pos ⟨rfl, hf⟩]
  have herr : (buildAPIRoot α E apiVer context kind verbosity fields items).errMsg =
      escapedStoredFatal E := by
    rw [buildAPIRoot_errMsg, hm0, hf0, hadopt]
  have hmsg : (buildAPIRoot α E apiVer context kind verbosity fields
      items).errMsg.message ≠ [] := by
    rw [herr]
    exact escapeJSONString_ne_nil hf
  have hmsg2 : (escapedStoredFatal E).message ≠ [] := by
    rw [← herr]
    exact hmsg
  have hroot : (buildAPIRoot α E apiVer context kind verbosity fields items).apiRoot =
      { newAPIData α (resolveVer E apiVer).1 context with
        id := -1, error := some (escapedStoredFatal E) } := by
    rw [buildAPIRoot_apiRoot, hm0, hf0, hadopt]
    dsimp only
    exact attachSections_err _ _ _ _ _ _ _ _ hmsg2
  refine ⟨?_, ?_, ?_, ?_⟩
  · exact (getJSONOutputAux_snd E marshal _
      (buildAPIRoot_fatal_iff α E apiVer context kind verbosity fields items)).2
      (Or.inl hmsg)
  · rw [hroot]
  · rw [hroot]
  · rw [hroot]
    rfl

theorem getJSONOutput_latched_fatal_witness :
    (gostr "1.0" ≠ ([] : GoStr) ∨ envLatched.envApiVer ≠ []) ∧
    envLatched.storedFatalError.message ≠ [] ∧
    ((GetJSONOutput envLatched marshalOk (gostr "1.0") (gostr "ctx") (gostr "env") []
        [] [5, 6]).2 = true ∧
      (buildAPIRoot Nat envLatched (gostr "1.0") (gostr "ctx") (gostr "env") []
        [] [5, 6]).apiRoot.id = -1 ∧
      (buildAPIRoot Nat envLatched (gostr "1.0") (gostr "ctx") (gostr "env") []
        [] [5, 6]).apiRoot.error = some (escapedStoredFatal envLatched) ∧
      (buildAPIRoot Nat envLatched (gostr "1.0") (gostr "ctx") (gostr "env") []
        [] [5, 6]).apiRoot.data = none) :=
  ⟨Or.inl (by decide), by decide,
    getJSONOutput_latched_fatal Nat envLatched marshalOk (gostr "1.0") (gostr "ctx")
      (gostr "env") [] [] [5, 6] (Or.inl (by decide)) (by decide)⟩

theorem encodeMsgInRawJSON_eq_nil_iff (flavor : GoStr) (msg : Msg) :
    encodeMsgInRawJSON flavor msg = [] ↔ msg.message = [] := by
  unfold encodeMsgInRawJSON
  split_ifs with h
  · simp [h]
  · have h22 : gostr "\x22" = [34] := by decide
    simp [h, h22]

/-- C7: FatalJSONMsg builds the fixed-shape fallback fragment: opening brace,
the version spliced in, the literal id -1, the optional note and warning
fragments, and the error fragment carrying the escaped message text with its
code and level; and when the formatting attempt fails it returns the raw
unformatted fragment, otherwise the formatted text. -/
theorem fatalJSONMsg_shape (E : ApiEnv) (apiVer : GoStr) (errMsg : Msg)
    (h : errMsg.message ≠ []) :
    (fatalRawJSON E apiVer errMsg =
      gostr "\x7b \x22apiVersion\x22:\x22" ++ apiVer ++ gostr "\x22, \x22id\x22: " ++
        gostr "-1" ++ gostr ", " ++ fatalMsgsJSON E errMsg ++ gostr " \x7d") ∧
    (fatalMsgsJSON E errMsg =
      (if E.storedNote.message = [] then []
        else encodeMsgInRawJSON (gostr "note") E.storedNote ++ gostr ", ") ++
      (if E.storedNonFatalWarning.message = [] then []
        else encodeMsgInRawJSON (gostr "warning") E.storedNonFatalWarning ++ gostr ", ") ++
      encodeMsgInRawJSON (gostr "error") errMsg) ∧
    (encodeMsgInRawJSON (gostr "error") errMsg =
      gostr "\x22" ++ gostr "error" ++ gostr "\x22: \x7b \x22message\x22: \x22" ++
        EscapeJSONString errMsg.message ++ gostr "\x22, \x22code\x22: " ++
        intToGoStr errMsg.code ++ gostr ", \x22level\x22: \x22" ++ errMsg.level ++
        gostr "\x22\x7d") ∧
    (FatalJSONMsg E apiVer errMsg =
      match (PrettyJSON E.cfg E.jsonIndent (fatalRawJSON E apiVer errMsg) []).2 with
      | some _ => fatalRawJSON E apiVer errMsg
      | none => (PrettyJSON E.cfg E.jsonIndent (fatalRawJSON E apiVer errMsg) []).1) := by
  have hErr0 : encodeMsgInRawJSON (gostr "error") errMsg ≠ [] := by
    rw [Ne, encodeMsgInRawJSON_eq_nil_iff]
    exact h
  refine ⟨?_, ?_, ?_, rfl⟩
  · unfold fatalRawJSON
    rw [show intToGoStr (-1) = gostr "-1" from by decide]
  · simp only [fatalMsgsJSON]
    by_cases hn : E.storedNote.message = [] <;>
      by_cases hw : E.storedNonFatalWarning.message = [] <;>
      simp [encodeMsgInRawJSON_eq_nil_iff, hErr0, hn, hw, List.append_assoc]
  · unfold encodeMsgInRawJSON
    rw [if_neg h]

theorem fatalJSONMsg_shape_witness :
    (NewMsg (gostr "bad") 9 (gostr "FATAL")).message ≠ [] ∧
    ((fatalRawJSON envEmpty (gostr "1.0") (NewMsg (gostr "bad") 9 (gostr "FATAL")) =
      gostr "\x7b \x22apiVersion\x22:\x22" ++ gostr "1.0" ++ gostr "\x22, \x22id\x22: " ++
        gostr "-1" ++ gostr ", " ++
        fatalMsgsJSON envEmpty (NewMsg (gostr "bad") 9 (gostr "FATAL")) ++ gostr " \x7d") ∧
    (fatalMsgsJSON envEmpty (NewMsg (gostr "bad") 9 (gostr "FATAL")) =
      (if envEmpty.storedNote.message = [] then []
        else encodeMsgInRawJSON (gostr "note") envEmpty.storedNote ++ gostr ", ") ++
      (if envEmpty.storedNonFatalWarning.message = [] then []
        else encodeMsgInRawJSON (gostr "warning") envEmpty.storedNonFatalWarning ++
          gostr ", ") ++
      encodeMsgInRawJSON (gostr "error") (NewMsg (gostr "bad") 9 (gostr "FATAL"))) ∧
    (encodeMsgInRawJSON (gostr "error") (NewMsg (gostr "bad") 9 (gostr "FATAL")) =
      gostr "\x22" ++ gostr "error" ++ gostr "\x22: \x7b \x22message\x22: \x22" ++
        EscapeJSONString (NewMsg (gostr "bad") 9 (gostr "FATAL")).message ++
        gostr "\x22, \x22code\x22: " ++
        intToGoStr (NewMsg (gostr "bad") 9 (gostr "FATAL")).code ++
        gostr ", \x22level\x22: \x22" ++ (NewMsg (gostr "bad") 9 (gostr "FATAL")).level ++
        gostr "\x22\x7d") ∧
    (FatalJSONMsg envEmpty (gostr "1.0") (NewMsg (gostr "bad") 9 (gostr "FATAL")) =
      match (PrettyJSON envEmpty.cfg envEmpty.jsonIndent
          (fatalRawJSON envEmpty (gostr "1.0") (NewMsg (gostr "bad") 9 (gostr "FATAL")))
          []).2 with
      | some _ => fatalRawJSON envEmpty (gostr "1.0") (NewMsg (gostr "bad") 9 (gostr "FATAL"))
      | none => (PrettyJSON envEmpty.cfg envEmpty.jsonIndent
          (fatalRawJSON envEmpty (gostr "1.0") (NewMsg (gostr "bad") 9 (gostr "FATAL")))
          []).1)) :=
  ⟨by decide,
    fatalJSONMsg_shape envEmpty (gostr "1.0") (NewMsg (gostr "bad") 9 (gostr "FATAL"))
      (by decide)⟩

theorem buildRoot_id_iff_error_witness :
    (buildAPIRoot Nat envEmpty (gostr "1.0") (gostr "ctx") (gostr "env") []
      [] [5, 6]).apiRoot.error = none ∧
    (buildAPIRoot Nat envEmpty (gostr "1.0") (gostr "ctx") (gostr "env") []
      [] [5, 6]).apiRoot.id = 0 :=
  ⟨by decide,
    (buildRoot_id_iff_error Nat envEmpty (gostr "1.0") (gostr "ctx") (gostr "env") []
      [] [5, 6]).2 (by decide)⟩
